import Mathlib

/-!
Verification development for the Vald8 evaluation engine.

The repository wraps a single function with an `@vald8` decorator, loads a
line-delimited dataset of (input, expected) examples, invokes the function on
each input, scores the output with pluggable test strategies (reference match,
substring containment, JSON-schema fidelity, LLM judge), aggregates per-run
metrics and returns a structured report.

The engine package itself is not among the provided source files (only its
tests and example callers are), so the engine definitions below are modelled
from the specification, while the example functions and datasets are translated
directly from the provided source files.
-/

namespace Vald8

/-- Python/JSON values exchanged with the wrapped function and stored in
dataset records: null, booleans, strings, (integer) numbers, arrays and
objects with ordered string keys. -/
inductive Json where
  | null
  | bool (b : Bool)
  | str (s : String)
  | num (n : Int)
  | arr (items : List Json)
  | obj (fields : List (String × Json))

mutual

/-- Structural equality test on JSON values. -/
def Json.beq : Json → Json → Bool
  | .null, .null => true
  | .bool a, .bool b => a == b
  | .str a, .str b => a == b
  | .num a, .num b => a == b
  | .arr a, .arr b => beqItems a b
  | .obj a, .obj b => beqFields a b
  | _, _ => false

/-- Elementwise equality of JSON arrays. -/
def beqItems : List Json → List Json → Bool
  | [], [] => true
  | a :: as, b :: bs => a.beq b && beqItems as bs
  | _, _ => false

/-- Elementwise equality of JSON object field lists. -/
def beqFields : List (String × Json) → List (String × Json) → Bool
  | [], [] => true
  | (k, a) :: as, (l, b) :: bs => k == l && a.beq b && beqFields as bs
  | _, _ => false

end

mutual

/-- Soundness and completeness of `Json.beq` for propositional equality. -/
theorem Json.beq_iff : ∀ a b : Json, a.beq b = true ↔ a = b
  | .null, b => by cases b <;> simp [Json.beq]
  | .bool x, b => by cases b <;> simp [Json.beq]
  | .str x, b => by cases b <;> simp [Json.beq]
  | .num x, b => by cases b <;> simp [Json.beq]
  | .arr xs, b => by
      cases b <;> simp [Json.beq]
      exact beqItems_iff xs _
  | .obj xs, b => by
      cases b <;> simp [Json.beq]
      exact beqFields_iff xs _

/-- Soundness and completeness of `beqItems`. -/
theorem beqItems_iff : ∀ a b : List Json, beqItems a b = true ↔ a = b
  | [], b => by cases b <;> simp [beqItems]
  | x :: xs, b => by
      cases b with
      | nil => simp [beqItems]
      | cons y ys =>
          simp [beqItems, Bool.and_eq_true, Json.beq_iff x y, beqItems_iff xs ys]

/-- Soundness and completeness of `beqFields`. -/
theorem beqFields_iff : ∀ a b : List (String × Json), beqFields a b = true ↔ a = b
  | [], b => by cases b <;> simp [beqFields]
  | (k, x) :: xs, b => by
      cases b with
      | nil => simp [beqFields]
      | cons y ys =>
          obtain ⟨l, v⟩ := y
          simp [beqFields, Bool.and_eq_true, Json.beq_iff x v, beqFields_iff xs ys,
            Prod.ext_iff, and_assoc]

end

/-- Field lookup in a JSON object (first binding wins); `none` on non-objects. -/
def Json.getField : Json → String → Option Json
  | .obj fields, k => fields.lookup k
  | _, _ => none

/-- Name of a JSON value's type, as used by JSON-Schema `type` constraints. -/
def Json.typeName : Json → String
  | .null => "null"
  | .bool _ => "boolean"
  | .str _ => "string"
  | .num _ => "number"
  | .arr _ => "array"
  | .obj _ => "object"

mutual

/-- Stringification of a value, as applied to a wrapped function's output
before substring checks: strings render as themselves, other values in a
Python-like notation. -/
def Json.display : Json → String
  | .null => "None"
  | .bool b => cond b "True" "False"
  | .str s => s
  | .num n => toString n
  | .arr items => "[" ++ displayItems items ++ "]"
  | .obj fields => "\x7b" ++ displayFields fields ++ "\x7d"

/-- Comma-separated rendering of array items. -/
def displayItems : List Json → String
  | [] => ""
  | [j] => j.display
  | j :: rest => j.display ++ ", " ++ displayItems rest

/-- Comma-separated rendering of object fields. -/
def displayFields : List (String × Json) → String
  | [] => ""
  | [(k, j)] => k ++ ": " ++ j.display
  | (k, j) :: rest => k ++ ": " ++ j.display ++ ", " ++ displayFields rest

end

/-- Lower-cased character sequence of a string, the basis of case-insensitive
substring matching. -/
def lowerChars (s : String) : List Char :=
  s.data.map Char.toLower

/-- Case-insensitive substring test: does `pat` occur contiguously inside
`text` when both are lower-cased? -/
def strContainsCI (text pat : String) : Bool :=
  decide (List.IsInfix (lowerChars pat) (lowerChars text))

/-- Case-sensitive substring test, mirroring Python's `pat in text`. -/
def strContains (text pat : String) : Bool :=
  decide (List.IsInfix pat.data text.data)

/-- Modelled from the spec: outcome of applying one test strategy to one
example (§3 TestResult). Fields: correlating example id, the strategy's name,
a boolean pass flag, a score in the unit interval and a free-form diagnostic. -/
structure TestResult where
  example_id : String := ""
  strategy_name : String
  passed : Bool
  score : ℚ
  detail : String := ""

/-- Modelled from the spec: the `reference` strategy (§4.2) — exact value
equality between the actual output and `expected.reference`; score 1.0 on
match, else 0.0. Missing `reference` key yields a failing result with
diagnostic detail rather than an exception. -/
def reference_strategy (actual : Json) (expected : List (String × Json)) : TestResult :=
  match expected.lookup "reference" with
  | some ref =>
      if actual.beq ref then
        { strategy_name := "reference", passed := true, score := 1 }
      else
        { strategy_name := "reference", passed := false, score := 0,
          detail := "expected " ++ ref.display ++ ", got " ++ actual.display }
  | none =>
      { strategy_name := "reference", passed := false, score := 0,
        detail := "expected mapping has no reference key" }

/-- Modelled from the spec: the `contains` strategy (§4.2, substring/accuracy
family) — passes iff every entry of `expected.contains` occurs
case-insensitively in the stringified actual output; score is the fraction of
required substrings found. -/
def contains_strategy (actual : Json) (expected : List (String × Json)) : TestResult :=
  match expected.lookup "contains" with
  | some (.arr items) =>
      let text := actual.display
      let pats := items.map Json.display
      let found := pats.filter (fun p => strContainsCI text p)
      let missing := pats.filter (fun p => !strContainsCI text p)
      { strategy_name := "contains",
        passed := found.length = pats.length,
        score := if pats.length = 0 then 1 else mkRat found.length pats.length,
        detail := match missing with
          | [] => ""
          | m :: _ => "missing required substring: " ++ m }
  | _ =>
      { strategy_name := "contains", passed := false, score := 0,
        detail := "expected mapping has no contains list" }

/-- Modelled from the spec: does a JSON-Schema `type` constraint (a single
type name or an array of alternatives) allow a given value? -/
def type_allows (tySpec : Json) (v : Json) : Bool :=
  match tySpec with
  | .str t => v.typeName == t || (t == "integer" && v.typeName == "number")
  | .arr ts => ts.any (fun t =>
      match t with
      | .str t => v.typeName == t || (t == "integer" && v.typeName == "number")
      | _ => false)
  | _ => true

/-- Root `type` constraint of a schema against a value, as a (satisfied,
violation message) list; empty when the schema declares no `type`. -/
def type_checks (schema actual : Json) : List (Bool × String) :=
  match schema.getField "type" with
  | some tySpec =>
      [(type_allows tySpec actual,
        "type mismatch: expected " ++ tySpec.display ++ ", got " ++ actual.typeName)]
  | none => []

/-- Constraints from a schema's `required` list: one per required property
name, satisfied when the actual object has that property. -/
def req_checks (schema actual : Json) : List (Bool × String) :=
  match schema.getField "required" with
  | some (.arr reqs) =>
      reqs.map (fun r =>
        match r with
        | .str name => ((actual.getField name).isSome, "missing required property: " ++ name)
        | _ => (true, ""))
  | _ => []

mutual

/-- Modelled from the spec: the individual JSON-Schema constraints checked by
`schema_fidelity` (§4.2) — the root `type`, every actual object field's
subschema taken from the schema's `properties` map, every actual array
element's shape against the schema's `items` subschema (nested object/array
shape), and every `required` property's presence — each paired with its
violation message. -/
def schema_checks (schema actual : Json) : List (Bool × String) :=
  type_checks schema actual ++
  (match actual with
   | .obj afields =>
       (match schema.getField "properties" with
        | some (.obj props) => fields_prop_checks props afields
        | _ => [])
   | .arr elems =>
       (match schema.getField "items" with
        | some isub => items_checks isub elems
        | none => [])
   | _ => []) ++
  req_checks schema actual

/-- Constraints on an actual object's fields: each field declared in the
schema's `properties` map is checked against its subschema, with the property
name prefixed onto each violation message. -/
def fields_prop_checks (props : List (String × Json)) :
    List (String × Json) → List (Bool × String)
  | [] => []
  | (k, v) :: rest =>
      (match props.lookup k with
       | some sub => (schema_checks sub v).map (fun c => (c.1, "property " ++ k ++ ": " ++ c.2))
       | none => []) ++ fields_prop_checks props rest

/-- Constraints on an actual array's elements: each element is checked
against the schema's `items` subschema. -/
def items_checks (isub : Json) : List Json → List (Bool × String)
  | [] => []
  | e :: rest =>
      (schema_checks isub e).map (fun c => (c.1, "item: " ++ c.2)) ++ items_checks isub rest

end

mutual

/-- Full validity of a value against a JSON Schema, stated as a direct
recursive predicate: root type allowed, all required properties present, all
object fields valid against their declared property subschemas, and all array
elements valid against the items subschema. -/
def json_schema_valid (schema actual : Json) : Bool :=
  (type_checks schema actual).all Prod.fst &&
  (match actual with
   | .obj afields =>
       (match schema.getField "properties" with
        | some (.obj props) => fields_props_valid props afields
        | _ => true)
   | .arr elems =>
       (match schema.getField "items" with
        | some isub => items_valid isub elems
        | none => true)
   | _ => true) &&
  (req_checks schema actual).all Prod.fst

/-- Validity of an actual object's fields against the schema's `properties`
map. -/
def fields_props_valid (props : List (String × Json)) : List (String × Json) → Bool
  | [] => true
  | (k, v) :: rest =>
      (match props.lookup k with
       | some sub => json_schema_valid sub v
       | none => true) && fields_props_valid props rest

/-- Validity of an actual array's elements against the `items` subschema. -/
def items_valid (isub : Json) : List Json → Bool
  | [] => true
  | e :: rest => json_schema_valid isub e && items_valid isub rest

end

/-- Message of the first unsatisfied constraint of a check list, when any. -/
def first_violation (checks : List (Bool × String)) : Option String :=
  (checks.find? (fun c => !c.1)).map Prod.snd

/-- Modelled from the spec: the `schema_fidelity` strategy (§4.2) — validates
the actual output against the JSON Schema in `expected.schema`; score 1.0 when
fully valid, else the fraction of satisfied constraints, with `detail` listing
the first violation. -/
def schema_fidelity_strategy (actual : Json) (expected : List (String × Json)) : TestResult :=
  match expected.lookup "schema" with
  | some schema =>
      let checks := schema_checks schema actual
      let sat := checks.filter Prod.fst
      { strategy_name := "schema_fidelity",
        passed := checks.all Prod.fst,
        score := if checks.length = 0 then 1 else mkRat sat.length checks.length,
        detail := (first_violation checks).getD "" }
  | none =>
      { strategy_name := "schema_fidelity", passed := false, score := 0,
        detail := "expected mapping has no schema key" }

/-- Modelled from the spec: the Judge Collaborator interface (§4.3) — an
external grader taking the actual output and a rubric and returning a verdict
(pass flag, unit-interval score, rationale), or a failure reason. -/
def Judge : Type :=
  Json → String → Except String (Bool × ℚ × String)

/-- Modelled from the spec: the reference/no-op judge implementation the
engine provides for testing (§4.3). -/
def reference_judge : Judge :=
  fun _ _ => .ok (true, 1, "reference judge: accepted")

/-- Modelled from the spec: the `custom_judge` strategy (§4.2, §4.3) — asks
the judge collaborator for a verdict on the actual output against the rubric
embedded in the expected mapping; a judge failure becomes a failing result,
never an exception. -/
def custom_judge_strategy (judge : Judge) (actual : Json) (expected : List (String × Json)) :
    TestResult :=
  let rubric := match expected.lookup "rubric" with
    | some (.str r) => r
    | _ => ""
  match judge actual rubric with
  | .ok (p, s, rationale) =>
      { strategy_name := "custom_judge", passed := p, score := s, detail := rationale }
  | .error reason =>
      { strategy_name := "custom_judge", passed := false, score := 0,
        detail := "judge unavailable: " ++ reason }

/-- Modelled from the spec: the Test Strategy Registry (§4.2) — resolves a
strategy name to its implementation; `accuracy` belongs to the
substring/accuracy family and resolves to the containment scorer; unknown
names resolve to nothing. -/
def strategy_registry (judge : Judge) (name : String) :
    Option (Json → List (String × Json) → TestResult) :=
  match name with
  | "reference" => some reference_strategy
  | "contains" => some contains_strategy
  | "accuracy" => some contains_strategy
  | "schema_fidelity" => some schema_fidelity_strategy
  | "custom_judge" => some (custom_judge_strategy judge)
  | _ => none

/-- Modelled from the spec: the registry application contract (§4.2)
`apply(strategy_name, actual_output, expected) -> TestResult`, using the
engine's reference judge for judge-based strategies; `none` exactly when the
name is not registered. -/
def apply (name : String) (actual : Json) (expected : List (String × Json)) :
    Option TestResult :=
  (strategy_registry reference_judge name).map (fun s => s actual expected)

/-- Modelled from the spec: one test case of a dataset (§3 DatasetExample) —
a correlation id, the input handed to the wrapped function, and the expected
mapping describing success criteria (empty meaning: record output only). -/
structure DatasetExample where
  id : String
  input : Json
  expected : List (String × Json)

/-- Modelled from the spec: one physical line of a line-delimited dataset file
(§6) — blank, malformed (not parseable as JSON), or a syntactically valid
JSON value. -/
inductive FileLine where
  | blank
  | malformed (text : String)
  | json (v : Json)

/-- Modelled from the spec: whether a file line is blank. -/
def FileLine.isBlank : FileLine → Bool
  | .blank => true
  | _ => false

/-- Modelled from the spec: the engine's two fatal error kinds (§7) — a
malformed dataset (with the offending line number) and an invalid
configuration; all other failures are isolated to the offending
example or strategy and never abort a run. -/
inductive EngineError where
  | datasetFormat (msg : String) (line : Nat)
  | configuration (msg : String)

/-- Modelled from the spec: parsing of one syntactically valid line into a
DatasetExample (§4.1) — the record must be a mapping with a string `id` and an
`input`; `expected` is an optional mapping defaulting to empty. -/
def parse_record (v : Json) : Option DatasetExample :=
  match v.getField "id", v.getField "input" with
  | some (.str i), some inp =>
      match v.getField "expected" with
      | some (.obj fs) => some ⟨i, inp, fs⟩
      | none => some ⟨i, inp, []⟩
      | some _ => none
  | _, _ => none

/-- Modelled from the spec: the recursive worker of `load_dataset`, carrying
the current line number for diagnostics. -/
def load_dataset_go : Nat → List FileLine → Except EngineError (List DatasetExample)
  | _, [] => .ok []
  | n, .blank :: rest => load_dataset_go (n + 1) rest
  | n, .malformed _ :: _ => .error (.datasetFormat "line is not parseable" n)
  | n, .json v :: rest =>
      match parse_record v with
      | some ex =>
          match load_dataset_go (n + 1) rest with
          | .ok exs => .ok (ex :: exs)
          | .error e => .error e
      | none => .error (.datasetFormat "record is not a valid example mapping" n)

/-- Modelled from the spec: `load_dataset(source)` (§4.1) — parses each line
of the file, skipping blank lines, failing the whole load with a
DatasetFormatError on any unparseable line or invalid record, and otherwise
returning the examples in file order. -/
def load_dataset (lines : List FileLine) : Except EngineError (List DatasetExample) :=
  load_dataset_go 1 lines

/-- Examples denoted by the syntactically valid record lines of a file,
whether or not the whole file loads. -/
def file_examples (lines : List FileLine) : List DatasetExample :=
  lines.filterMap (fun l =>
    match l with
    | .json v => parse_record v
    | _ => none)

/-- Warning text flagging a duplicate example id. -/
def dup_warning (id : String) : String :=
  "duplicate id: " ++ id

/-- Modelled from the spec: the recursive worker of `validate_dataset_format`,
carrying the ids already seen. -/
def validate_go : List String → List FileLine → List String
  | _, [] => []
  | seen, .blank :: rest => validate_go seen rest
  | seen, .malformed _ :: rest => "line is not parseable" :: validate_go seen rest
  | seen, .json v :: rest =>
      match parse_record v with
      | none => "record is not a valid example mapping" :: validate_go seen rest
      | some ex =>
          (if ex.id ∈ seen then [dup_warning ex.id] else []) ++
          (if ex.id = "" then ["empty id"] else []) ++
          (if ex.expected.isEmpty then ["missing expected for id: " ++ ex.id] else []) ++
          (if ex.input.beq (.str "") then ["empty input for id: " ++ ex.id] else []) ++
          validate_go (ex.id :: seen) rest

/-- Modelled from the spec: `validate_dataset_format(source)` (§4.1) — a
total, non-fatal pass over the file that reports duplicate ids, missing
`expected`, empty `input` and unparseable or invalid lines as warning strings;
being a total function it never raises on any input. -/
def validate_dataset_format (lines : List FileLine) : List String :=
  validate_go [] lines

/-- Modelled from the spec: the immutable configuration captured at decoration
time (§3 EvaluationConfig) — the dataset path (resolved lazily), the optional
ordered list of strategy names (absent meaning: infer one from the shape of
`expected`), and the optional judge provider and model. -/
structure EvaluationConfig where
  dataset : String
  tests : Option (List String) := none
  judge_provider : Option String := none
  judge_model : Option String := none

/-- Modelled from the spec: the wrapped callable produced by the `@vald8`
decorator (§4.6) — it owns the configuration and a reference to the underlying
function (a function from one value to a result or a raised exception
message). -/
structure Vald8Fn where
  func : Json → Except String Json
  config : EvaluationConfig

/-- Modelled from the spec: the `@vald8` decorator itself — attaches the
configuration to a callable without altering it. -/
def vald8 (config : EvaluationConfig) (f : Json → Except String Json) : Vald8Fn :=
  { func := f, config := config }

/-- Modelled from the spec: direct invocation of a wrapped callable (§4.6) —
delegates to the underlying function. -/
def Vald8Fn.call (w : Vald8Fn) (x : Json) : Except String Json :=
  w.func x

/-- Modelled from the spec: `get_config()` (§4.6) — returns the configuration
captured at decoration time. -/
def Vald8Fn.get_config (w : Vald8Fn) : EvaluationConfig :=
  w.config

/-- Modelled from the spec: eager resolution of the configured strategy names
(§4.2) — the first name the registry cannot resolve yields a
ConfigurationError; an absent list (inference mode) always resolves. -/
def resolve_tests (judge : Judge) : Option (List String) → Except EngineError Unit
  | none => .ok ()
  | some names =>
      match names.find? (fun n => (strategy_registry judge n).isNone) with
      | some n => .error (.configuration ("unknown strategy: " ++ n))
      | none => .ok ()

/-- Modelled from the spec: the strategies applied to one example — the
configured names resolved through the registry when a test list was given,
otherwise a single implicit strategy inferred from the shape of the example's
expected mapping (a `schema` key implies schema validation, then `reference`,
then `contains`; an empty mapping asserts nothing). -/
def strategies_for (judge : Judge) (config : EvaluationConfig) (ex : DatasetExample) :
    List (String × (Json → List (String × Json) → TestResult)) :=
  match config.tests with
  | some names => names.filterMap (fun n => (strategy_registry judge n).map (fun s => (n, s)))
  | none =>
      if (ex.expected.lookup "schema").isSome then [("schema_fidelity", schema_fidelity_strategy)]
      else if (ex.expected.lookup "reference").isSome then [("reference", reference_strategy)]
      else if (ex.expected.lookup "contains").isSome then [("contains", contains_strategy)]
      else []

/-- Modelled from the spec: the per-example record the orchestrator collects —
the example's id, one TestResult per applied strategy (or a single failing
execution record when the function raised), and the combined pass flag. -/
structure ExampleOutcome where
  example_id : String
  results : List TestResult
  passed : Bool

/-- Modelled from the spec: evaluation of one example (§4.4 steps 2–4) —
invoke the wrapped function on the example's input; a raised exception is
recorded as a failed outcome whose detail captures the exception message;
otherwise every applied strategy scores the output and the example passes iff
all of them pass. -/
def evaluate_example (judge : Judge) (f : Json → Except String Json)
    (config : EvaluationConfig) (ex : DatasetExample) : ExampleOutcome :=
  match f ex.input with
  | .error msg =>
      { example_id := ex.id,
        results := [{ example_id := ex.id, strategy_name := "execution", passed := false,
                      score := 0, detail := "function raised: " ++ msg }],
        passed := false }
  | .ok out =>
      let rs := (strategies_for judge config ex).map
        (fun p => { p.2 out ex.expected with example_id := ex.id, strategy_name := p.1 })
      { example_id := ex.id, results := rs, passed := rs.all TestResult.passed }

/-- Modelled from the spec: the aggregate block of a run report (§3
RunSummary) — example counts, the success rate and per-strategy score
statistics. -/
structure Summary where
  total_tests : Nat
  passed_tests : Nat
  failed_tests : Nat
  success_rate : ℚ
  metrics : List (String × (ℚ × ℚ × ℚ))

/-- Mean, minimum and maximum of a list of scores (zeroes on an empty list). -/
def stats_of (scores : List ℚ) : ℚ × ℚ × ℚ :=
  match scores with
  | [] => (0, 0, 0)
  | s :: rest =>
      ((s + rest.foldr (· + ·) 0) * mkRat 1 (rest.length + 1),
       rest.foldr min s,
       rest.foldr max s)

/-- Modelled from the spec: per-strategy metrics across all results of a run
(§4.4) — for each strategy name appearing in the results, in first-appearance
order, the mean, min and max of its scores. -/
def metrics_of (results : List TestResult) : List (String × (ℚ × ℚ × ℚ)) :=
  (results.map TestResult.strategy_name).eraseDups.map
    (fun n => (n, stats_of ((results.filter (fun r => r.strategy_name == n)).map TestResult.score)))

/-- Modelled from the spec: aggregation of finished outcomes (§4.5) — total,
passed and failed example counts, success rate passed/total, and per-strategy
metrics. -/
def summarize (outcomes : List ExampleOutcome) : Summary :=
  let total := outcomes.length
  let passedCount := (outcomes.filter ExampleOutcome.passed).length
  { total_tests := total,
    passed_tests := passedCount,
    failed_tests := total - passedCount,
    success_rate := mkRat passedCount total,
    metrics := metrics_of (outcomes.flatMap ExampleOutcome.results) }

/-- Modelled from the spec: the run report returned by `run_eval()` (§3, §6) —
run id, overall pass flag (all examples passed), persisted-location handle,
the aggregate summary and the ordered per-example outcomes. -/
structure RunReport where
  run_id : String
  passed : Bool
  run_dir : String
  summary : Summary
  results : List ExampleOutcome

/-- Modelled from the spec: assembly of the final report from finished
outcomes (§4.4 step 4, §4.5). -/
def build_report (run_id : String) (outcomes : List ExampleOutcome) : RunReport :=
  { run_id := run_id,
    passed := outcomes.all ExampleOutcome.passed,
    run_dir := "runs/" ++ run_id,
    summary := summarize outcomes,
    results := outcomes }

/-- Modelled from the spec: `run_eval()` (§4.4) — resolve the configured
strategy names (fail fast with a ConfigurationError on an unknown name,
before any example is invoked), load the dataset (fail with a
DatasetFormatError when malformed), evaluate every example in file order and
return the aggregated report; the file contents and the fresh run id are
passed in explicitly. -/
def Vald8Fn.run_eval (w : Vald8Fn) (judge : Judge) (file : List FileLine) (run_id : String) :
    Except EngineError RunReport :=
  match resolve_tests judge w.config.tests with
  | .error e => .error e
  | .ok () =>
      match load_dataset file with
      | .error e => .error e
      | .ok exs =>
          .ok (build_report run_id (exs.map (evaluate_example judge w.func w.config)))

/-- Function `simple_math` of quick_test.py: returns "4" on the exact input
"2+2" and "unknown" otherwise; it never raises. -/
def simple_math (j : Json) : Except String Json :=
  if j.beq (.str "2+2") then .ok (.str "4") else .ok (.str "unknown")

/-- Function `simple_function` of simple_test.py: returns "4" on "2+2",
"hello world" when the lower-cased input contains "hello", otherwise
"unknown"; calling `.lower()` on a non-string raises. -/
def simple_function (j : Json) : Except String Json :=
  if j.beq (.str "2+2") then .ok (.str "4")
  else
    match j with
    | .str t => if strContainsCI t "hello" then .ok (.str "hello world") else .ok (.str "unknown")
    | _ => .error "AttributeError: object has no attribute lower"

/-- Function `extract_person_info` of examples/basic_example.py: extracts a
name/age/occupation object from the text, leaving fields absent from the text
as null; calling string operations on a non-string input raises. -/
def extract_person_info (j : Json) : Except String Json :=
  match j with
  | .str text =>
      .ok (.obj
        [("name", if strContains text "John" then .str "John" else .null),
         ("age", if strContains text "30" then .num 30 else .null),
         ("occupation", if strContainsCI text "engineer" then .str "engineer" else .null)])
  | _ => .error "TypeError: argument of type is not iterable"

/-- Dataset file written by test_dataset_loading of quick_test.py: two
reference-strategy records. -/
def test_loading_file : List FileLine :=
  [.json (.obj [("id", .str "test1"), ("input", .str "hello"),
                ("expected", .obj [("reference", .str "world")])]),
   .json (.obj [("id", .str "test2"), ("input", .str "foo"),
                ("expected", .obj [("reference", .str "bar")])])]

/-- Dataset file written by simple_test.py: a reference record and a
contains record. -/
def simple_test_file : List FileLine :=
  [.json (.obj [("id", .str "test1"), ("input", .str "2+2"),
                ("expected", .obj [("reference", .str "4")])]),
   .json (.obj [("id", .str "test2"), ("input", .str "hello"),
                ("expected", .obj [("contains", .arr [.str "hello"])])])]

/-- Configuration of the `@vald8` decoration of simple_function in
simple_test.py. -/
def simple_test_config : EvaluationConfig :=
  { dataset := "simple_test.jsonl" }

/-- Schema of the person1 record of examples/structured_tests.jsonl
(examples/basic_example.py): an object with string/number/string properties,
all three required. -/
def person_schema : Json :=
  .obj [("type", .str "object"),
        ("properties", .obj
          [("name", .obj [("type", .str "string")]),
           ("age", .obj [("type", .str "number")]),
           ("occupation", .obj [("type", .str "string")])]),
        ("required", .arr [.str "name", .str "age", .str "occupation"])]

/-- Dataset file examples/structured_tests.jsonl written by
create_example_datasets of examples/basic_example.py. -/
def structured_tests_file : List FileLine :=
  [.json (.obj [("id", .str "person1"),
                ("input", .str "John is 30 years old and works as an engineer"),
                ("expected", .obj [("schema", person_schema),
                                   ("contains", .arr [.str "John"])])]),
   .json (.obj [("id", .str "person2"),
                ("input", .str "Sarah is a teacher"),
                ("expected", .obj [("schema", .obj
                  [("type", .str "object"),
                   ("properties", .obj
                     [("name", .obj [("type", .arr [.str "string", .str "null"])]),
                      ("age", .obj [("type", .arr [.str "number", .str "null"])]),
                      ("occupation", .obj [("type", .arr [.str "string", .str "null"])])])])])])]

/-- Configuration of the `@vald8` decoration of extract_person_info in
examples/basic_example.py: schema fidelity plus the accuracy strategy. -/
def structured_config : EvaluationConfig :=
  { dataset := "examples/structured_tests.jsonl",
    tests := some ["schema_fidelity", "accuracy"] }

/-- Demonstration file with a blank line between two valid records, in the
shape of the file written by test_dataset_loading of quick_test.py. -/
def blank_line_file : List FileLine :=
  [.json (.obj [("id", .str "test1"), ("input", .str "hello"),
                ("expected", .obj [("reference", .str "world")])]),
   .blank,
   .json (.obj [("id", .str "test2"), ("input", .str "foo"),
                ("expected", .obj [("reference", .str "bar")])])]

/-- Examples denoted by the two non-blank lines of `blank_line_file`. -/
def blank_line_file_examples : List DatasetExample :=
  [⟨"test1", .str "hello", [("reference", .str "world")]⟩,
   ⟨"test2", .str "foo", [("reference", .str "bar")]⟩]

/-- Demonstration file whose two records share the id "dup". -/
def duplicate_id_file : List FileLine :=
  [.json (.obj [("id", .str "dup"), ("input", .str "a"),
                ("expected", .obj [("reference", .str "x")])]),
   .json (.obj [("id", .str "dup"), ("input", .str "b"),
                ("expected", .obj [("reference", .str "y")])])]

/-- Demonstration function that raises on the input "boom" and answers "ok"
otherwise. -/
def boom_function (j : Json) : Except String Json :=
  if j.beq (.str "boom") then .error "kaboom" else .ok (.str "ok")

/-- Demonstration file for the failure-isolation property: the first record's
input makes `boom_function` raise, the second is answered correctly. -/
def boom_file : List FileLine :=
  [.json (.obj [("id", .str "e1"), ("input", .str "boom"),
                ("expected", .obj [("reference", .str "ok")])]),
   .json (.obj [("id", .str "e2"), ("input", .str "x"),
                ("expected", .obj [("reference", .str "ok")])])]

/-- Demonstration configuration selecting the reference strategy explicitly. -/
def reference_config : EvaluationConfig :=
  { dataset := "boom.jsonl", tests := some ["reference"] }

/-- Demonstration configuration naming a strategy the registry does not
know. -/
def bogus_config : EvaluationConfig :=
  { dataset := "data.jsonl", tests := some ["bogus"] }

/-- Report computed by the evaluation run of simple_test.py: simple_function
over the two examples of its dataset. -/
def simple_test_report : RunReport :=
  build_report "run-0"
    (([⟨"test1", .str "2+2", [("reference", .str "4")]⟩,
       ⟨"test2", .str "hello", [("contains", .arr [.str "hello"])]⟩] : List DatasetExample).map
      (evaluate_example reference_judge simple_function simple_test_config))

/-- Normalised rational construction agrees with field division. -/
theorem mkRat_eq_div (a b : Nat) : mkRat a b = (a : ℚ) / (b : ℚ) := by
  rw [Rat.mkRat_eq_divInt, Rat.divInt_eq_div]
  push_cast
  ring

/-- Proper fractions of naturals are below one. -/
theorem mkRat_lt_one (a b : Nat) (h : a < b) : mkRat a b < 1 := by
  rw [mkRat_eq_div]
  have hb : (0 : ℚ) < (b : ℚ) := by exact_mod_cast Nat.lt_of_le_of_lt (Nat.zero_le a) h
  rw [div_lt_one hb]
  exact_mod_cast h

/-- Full fractions of naturals equal one. -/
theorem mkRat_self_eq_one (b : Nat) (h : b ≠ 0) : mkRat b b = 1 := by
  rw [mkRat_eq_div]
  exact div_self (by exact_mod_cast h)

/-- Boolean universal over a list, restated through the length of its
filtered sublist. -/
theorem all_eq_decide_filter_length {α : Type} (l : List α) (p : α → Bool) :
    l.all p = decide ((l.filter p).length = l.length) := by
  by_cases h : ∀ a ∈ l, p a
  · simp [List.all_eq_true.mpr h, List.filter_length_eq_length.mpr h]
  · have h1 : l.all p = false := by
      simpa [List.all_eq_true] using h
    have h2 : (l.filter p).length ≠ l.length := fun hc => h (List.filter_length_eq_length.mp hc)
    simp [h1, h2]

mutual

/-- Conjunction of the individual schema constraints coincides with the
direct recursive validity predicate. -/
theorem schema_checks_all_eq_valid : ∀ s a, (schema_checks s a).all Prod.fst = json_schema_valid s a
  | s, .null => by simp [schema_checks, json_schema_valid, List.all_append]
  | s, .bool b => by simp [schema_checks, json_schema_valid, List.all_append]
  | s, .str t => by simp [schema_checks, json_schema_valid, List.all_append]
  | s, .num n => by simp [schema_checks, json_schema_valid, List.all_append]
  | s, .arr elems => by
      cases hi : s.getField "items" with
      | some isub =>
          simp [schema_checks, json_schema_valid, hi, List.all_append,
            items_checks_all_eq_valid isub elems, Bool.and_assoc]
      | none => simp [schema_checks, json_schema_valid, hi, List.all_append]
  | s, .obj afields => by
      cases hp : s.getField "properties" with
      | some p =>
          cases p with
          | obj props =>
              simp [schema_checks, json_schema_valid, hp, List.all_append,
                fields_prop_checks_all_eq_valid props afields, Bool.and_assoc]
          | null => simp [schema_checks, json_schema_valid, hp, List.all_append]
          | bool b => simp [schema_checks, json_schema_valid, hp, List.all_append]
          | str t => simp [schema_checks, json_schema_valid, hp, List.all_append]
          | num n => simp [schema_checks, json_schema_valid, hp, List.all_append]
          | arr items => simp [schema_checks, json_schema_valid, hp, List.all_append]
      | none => simp [schema_checks, json_schema_valid, hp, List.all_append]

/-- Constraint/validity agreement for an actual object's field list. -/
theorem fields_prop_checks_all_eq_valid (props : List (String × Json)) :
    ∀ afields, (fields_prop_checks props afields).all Prod.fst = fields_props_valid props afields
  | [] => by simp [fields_prop_checks, fields_props_valid]
  | (k, v) :: rest => by
      cases hl : props.lookup k with
      | some sub =>
          simp [fields_prop_checks, fields_props_valid, hl, List.all_append, List.all_map,
            Function.comp_def, schema_checks_all_eq_valid sub v,
            fields_prop_checks_all_eq_valid props rest]
      | none =>
          simp [fields_prop_checks, fields_props_valid, hl, List.all_append,
            fields_prop_checks_all_eq_valid props rest]

/-- Constraint/validity agreement for an actual array's element list. -/
theorem items_checks_all_eq_valid (isub : Json) :
    ∀ elems, (items_checks isub elems).all Prod.fst = items_valid isub elems
  | [] => by simp [items_checks, items_valid]
  | e :: rest => by
      simp [items_checks, items_valid, List.all_append, List.all_map, Function.comp_def,
        schema_checks_all_eq_valid isub e, items_checks_all_eq_valid isub rest]

end

/-- A successful load pairs each non-blank line of the file with its parsed
example, in file order. -/
theorem load_go_forall2 : ∀ (n : Nat) (lines : List FileLine) (exs : List DatasetExample),
    load_dataset_go n lines = .ok exs →
    List.Forall₂ (fun l ex => ∃ v, l = FileLine.json v ∧ parse_record v = some ex)
      (lines.filter (fun l => !l.isBlank)) exs
  | _, [], exs => by
      intro h
      simp only [load_dataset_go] at h
      cases h
      simp
  | n, .blank :: rest, exs => by
      intro h
      rw [load_dataset_go] at h
      simpa [FileLine.isBlank] using load_go_forall2 (n + 1) rest exs h
  | n, .malformed t :: rest, exs => by
      intro h
      simp [load_dataset_go] at h
  | n, .json v :: rest, exs => by
      intro h
      rw [load_dataset_go] at h
      cases hp : parse_record v with
      | none => rw [hp] at h; simp at h
      | some ex =>
          rw [hp] at h
          cases hr : load_dataset_go (n + 1) rest with
          | error e => rw [hr] at h; simp at h
          | ok exs2 =>
              rw [hr] at h
              simp only [Except.ok.injEq] at h
              cases h
              simpa [FileLine.isBlank] using
                List.Forall₂.cons ⟨v, rfl, hp⟩ (load_go_forall2 (n + 1) rest exs2 hr)

/-- Duplicate-id flagging of the validator worker: a duplicate among the
remaining records, or one repetition of an already seen id, puts the duplicate
warning in the output. -/
theorem validate_go_dup : ∀ (lines : List FileLine) (seen : List String) (s : String),
    (2 ≤ ((file_examples lines).map DatasetExample.id).count s ∨
     (s ∈ seen ∧ 1 ≤ ((file_examples lines).map DatasetExample.id).count s)) →
    dup_warning s ∈ validate_go seen lines
  | [], _, s => by
      intro h
      simp [file_examples] at h
  | .blank :: rest, seen, s => by
    intro h
    rw [validate_go]
    exact validate_go_dup rest seen s (by simpa [file_examples] using h)
  | .malformed t :: rest, seen, s => by
    intro h
    rw [validate_go]
    exact List.mem_cons_of_mem _ (validate_go_dup rest seen s (by simpa [file_examples] using h))
  | .json v :: rest, seen, s => by
    intro h
    rw [validate_go]
    cases hp : parse_record v with
    | none =>
        refine List.mem_cons_of_mem _ (validate_go_dup rest seen s ?_)
        simpa [file_examples, hp] using h
    | some ex =>
        have hids : ((file_examples (.json v :: rest)).map DatasetExample.id).count s =
            ((file_examples rest).map DatasetExample.id).count s +
              (if ex.id = s then 1 else 0) := by
          simp [file_examples, hp, List.count_cons]
        rw [hids] at h
        simp only [List.mem_append]
        by_cases hs : ex.id = s
        · rcases h with h2 | ⟨hseen, _⟩
          · have h1 : 1 ≤ ((file_examples rest).map DatasetExample.id).count s := by
              rw [if_pos hs] at h2
              omega
            refine Or.inr (validate_go_dup rest (ex.id :: seen) s ?_)
            exact Or.inr ⟨hs ▸ List.mem_cons_self _ _, h1⟩
          · refine Or.inl (Or.inl (Or.inl (Or.inl ?_)))
            rw [if_pos (hs ▸ hseen : ex.id ∈ seen), hs]
            exact List.mem_singleton.mpr rfl
        · rw [if_neg hs, Nat.add_zero] at h
          refine Or.inr (validate_go_dup rest (ex.id :: seen) s ?_)
          rcases h with h2 | ⟨hseen, h1⟩
          · exact Or.inl h2
          · exact Or.inr ⟨List.mem_cons_of_mem _ hseen, h1⟩

/-- C1: decoration is transparent — for every function f wrapped by the vald8
decorator and every argument x, calling the wrapped f on x returns exactly
what the unwrapped f returns on x, including raising the same exception (the
Except value carries both outcomes). -/
theorem C1_decorator_transparency (config : EvaluationConfig)
    (f : Json → Except String Json) (x : Json) :
    (vald8 config f).call x = f x :=
  rfl

/-- C2: for every well-formed dataset file, load_dataset returns exactly one
DatasetExample per non-blank line of the file, in file order; blank lines are
skipped and produce no example. -/
theorem C2_load_dataset_one_example_per_line (lines : List FileLine)
    (exs : List DatasetExample) (h : load_dataset lines = .ok exs) :
    exs.length = (lines.filter (fun l => !l.isBlank)).length ∧
    List.Forall₂ (fun l ex => ∃ v, l = FileLine.json v ∧ parse_record v = some ex)
      (lines.filter (fun l => !l.isBlank)) exs := by
  have h2 := load_go_forall2 1 lines exs h
  exact ⟨(List.Forall₂.length_eq h2).symm, h2⟩

/-- Witness for C2 on a concrete three-line file whose middle line is blank. -/
theorem C2_witness :
    load_dataset blank_line_file = .ok blank_line_file_examples ∧
    (blank_line_file_examples.length =
      (blank_line_file.filter (fun l => !l.isBlank)).length ∧
     List.Forall₂ (fun l ex => ∃ v, l = FileLine.json v ∧ parse_record v = some ex)
       (blank_line_file.filter (fun l => !l.isBlank)) blank_line_file_examples) :=
  ⟨rfl, C2_load_dataset_one_example_per_line blank_line_file blank_line_file_examples rfl⟩

/-- C3: validate_dataset_format is a total function returning warning strings
(never an exception, by construction), and whenever two examples of the file
share an id — the id occurring at least twice among the file's parsed
records — the output flags that duplicate id. -/
theorem C3_validate_flags_duplicate_ids (lines : List FileLine) (s : String)
    (h : 2 ≤ ((file_examples lines).map DatasetExample.id).count s) :
    dup_warning s ∈ validate_dataset_format lines :=
  validate_go_dup lines [] s (Or.inl h)

/-- Witness for C3 on a concrete file with two records sharing the id
"dup". -/
theorem C3_witness :
    2 ≤ ((file_examples duplicate_id_file).map DatasetExample.id).count "dup" ∧
    dup_warning "dup" ∈ validate_dataset_format duplicate_id_file :=
  ⟨by decide, C3_validate_flags_duplicate_ids duplicate_id_file "dup" (by decide)⟩

/-- C4: the reference strategy passes with score 1.0 exactly when the actual
output equals expected.reference, and fails with score 0.0 otherwise. -/
theorem C4_reference_strategy_exact_match (actual : Json)
    (expected : List (String × Json)) (ref : Json)
    (h : expected.lookup "reference" = some ref) :
    ∃ r, apply "reference" actual expected = some r ∧
      (actual = ref → r.passed = true ∧ r.score = 1) ∧
      (actual ≠ ref → r.passed = false ∧ r.score = 0) := by
  refine ⟨reference_strategy actual expected, rfl, ?_, ?_⟩
  · intro heq
    subst heq
    simp [reference_strategy, h, (Json.beq_iff actual actual).mpr rfl]
  · intro hne
    have hb : actual.beq ref = false := by
      cases hbe : actual.beq ref
      · rfl
      · exact absurd ((Json.beq_iff _ _).mp hbe) hne
    simp [reference_strategy, h, hb]

/-- Witness for C4 at the spec's concrete instances: actual "4" matches
reference "4", actual "5" does not. -/
theorem C4_witness :
    ([("reference", Json.str "4")].lookup "reference" = some (Json.str "4")) ∧
    (∃ r, apply "reference" (.str "4") [("reference", Json.str "4")] = some r ∧
      (Json.str "4" = Json.str "4" → r.passed = true ∧ r.score = 1) ∧
      (Json.str "4" ≠ Json.str "4" → r.passed = false ∧ r.score = 0)) ∧
    (∃ r, apply "reference" (.str "5") [("reference", Json.str "4")] = some r ∧
      (Json.str "5" = Json.str "4" → r.passed = true ∧ r.score = 1) ∧
      (Json.str "5" ≠ Json.str "4" → r.passed = false ∧ r.score = 0)) :=
  ⟨rfl,
   C4_reference_strategy_exact_match (.str "4") [("reference", Json.str "4")] (.str "4") rfl,
   C4_reference_strategy_exact_match (.str "5") [("reference", Json.str "4")] (.str "4") rfl⟩

/-- C5: the contains strategy passes exactly when every required substring of
expected.contains occurs case-insensitively in the stringified actual output;
its score is the fraction of required substrings found, so any missing
substring forces a failure with a score strictly below one. -/
theorem C5_contains_strategy_fraction (actual : Json) (expected : List (String × Json))
    (items : List Json) (h : expected.lookup "contains" = some (.arr items)) :
    ∃ r, apply "contains" actual expected = some r ∧
      (r.passed = true ↔ ∀ p ∈ items, strContainsCI actual.display p.display = true) ∧
      (items ≠ [] →
        r.score = (((items.map Json.display).filter (strContainsCI actual.display)).length : ℚ) /
          ((items.length : ℚ))) ∧
      (∀ p ∈ items, strContainsCI actual.display p.display = false →
        r.passed = false ∧ r.score < 1) := by
  refine ⟨contains_strategy actual expected, rfl, ?_, ?_, ?_⟩
  · simp only [contains_strategy, h]
    rw [decide_eq_true_iff, List.filter_length_eq_length, List.forall_mem_map]
  · intro hne
    have hlen : (items.map Json.display).length ≠ 0 := by
      simpa using fun hc => hne (List.eq_nil_of_length_eq_zero hc)
    simp only [contains_strategy, h, if_neg hlen]
    rw [mkRat_eq_div, List.length_map]
  · intro p hp hmiss
    have hlt : ((items.map Json.display).filter (strContainsCI actual.display)).length <
        (items.map Json.display).length :=
      List.length_filter_lt_length_iff_exists.mpr
        ⟨p.display, List.mem_map_of_mem _ hp, by simp [hmiss]⟩
    have hlen : (items.map Json.display).length ≠ 0 := by
      intro hc
      rw [hc] at hlt
      omega
    constructor
    · simp only [contains_strategy, h]
      simpa using Nat.ne_of_lt hlt
    · simp only [contains_strategy, h, if_neg hlen]
      exact mkRat_lt_one _ _ hlt

/-- Witness for C5 at the spec's concrete instance: the greeting output
contains both "Hello" and "help". -/
theorem C5_witness :
    ([("contains", Json.arr [.str "Hello", .str "help"])].lookup "contains" =
      some (.arr [.str "Hello", .str "help"])) ∧
    (∃ r, apply "contains" (.str "Hello! How can I help?")
        [("contains", Json.arr [.str "Hello", .str "help"])] = some r ∧
      (r.passed = true ↔ ∀ p ∈ [Json.str "Hello", Json.str "help"],
        strContainsCI (Json.str "Hello! How can I help?").display p.display = true) ∧
      ([Json.str "Hello", Json.str "help"] ≠ [] →
        r.score = ((([Json.str "Hello", Json.str "help"].map Json.display).filter
            (strContainsCI (Json.str "Hello! How can I help?").display)).length : ℚ) /
          (([Json.str "Hello", Json.str "help"].length : ℚ))) ∧
      (∀ p ∈ [Json.str "Hello", Json.str "help"],
        strContainsCI (Json.str "Hello! How can I help?").display p.display = false →
        r.passed = false ∧ r.score < 1)) :=
  ⟨rfl, C5_contains_strategy_fraction (.str "Hello! How can I help?")
    [("contains", Json.arr [.str "Hello", .str "help"])] [.str "Hello", .str "help"] rfl⟩

/-- C6: the schema_fidelity strategy passes with score 1.0 exactly when the
actual output fully satisfies the JSON Schema of expected.schema — the pass
flag is equivalent to the recursive validity predicate, whose conjunction of
individual constraints is stated explicitly; when the actual output violates
the schema, passed is false, the score is the fraction of satisfied schema
constraints (strictly below one), and the detail lists the first
violation. -/
theorem C6_schema_fidelity_validity (actual : Json) (expected : List (String × Json))
    (schema : Json) (h : expected.lookup "schema" = some schema) :
    ∃ r, apply "schema_fidelity" actual expected = some r ∧
      (schema_checks schema actual).all Prod.fst = json_schema_valid schema actual ∧
      (r.passed = true ↔ json_schema_valid schema actual = true) ∧
      (json_schema_valid schema actual = true → r.score = 1) ∧
      ((schema_checks schema actual).length ≠ 0 →
        r.score = (((schema_checks schema actual).filter Prod.fst).length : ℚ) /
          ((schema_checks schema actual).length : ℚ)) ∧
      (json_schema_valid schema actual = false →
        r.passed = false ∧ r.score < 1 ∧
        ∃ m, first_violation (schema_checks schema actual) = some m ∧ r.detail = m) := by
  refine ⟨schema_fidelity_strategy actual expected, rfl,
    schema_checks_all_eq_valid schema actual, ?_, ?_, ?_, ?_⟩
  · rw [← schema_checks_all_eq_valid]
    simp [schema_fidelity_strategy, h]
  · intro hv
    have hall : (schema_checks schema actual).all Prod.fst = true :=
      (schema_checks_all_eq_valid schema actual).symm ▸ hv
    have hflt : ((schema_checks schema actual).filter Prod.fst).length =
        (schema_checks schema actual).length :=
      List.filter_length_eq_length.mpr (List.all_eq_true.mp hall)
    simp only [schema_fidelity_strategy, h]
    by_cases h0 : (schema_checks schema actual).length = 0
    · rw [if_pos h0]
    · rw [if_neg h0, hflt]
      exact mkRat_self_eq_one _ h0
  · intro h0
    simp only [schema_fidelity_strategy, h, if_neg h0]
    rw [mkRat_eq_div]
  · intro hviol
    have hall : (schema_checks schema actual).all Prod.fst = false := by
      rw [schema_checks_all_eq_valid]
      exact hviol
    obtain ⟨c, hc, hcf⟩ : ∃ c ∈ schema_checks schema actual, c.1 = false := by
      simpa [List.all_eq_true] using hall
    have hlt : ((schema_checks schema actual).filter Prod.fst).length <
        (schema_checks schema actual).length :=
      List.length_filter_lt_length_iff_exists.mpr ⟨c, hc, by simp [hcf]⟩
    have h0 : (schema_checks schema actual).length ≠ 0 := by
      intro hz
      rw [hz] at hlt
      omega
    refine ⟨?_, ?_, ?_⟩
    · simp [schema_fidelity_strategy, h, hall]
    · simp only [schema_fidelity_strategy, h, if_neg h0]
      exact mkRat_lt_one _ _ hlt
    · have hsome : ((schema_checks schema actual).find? (fun c => !c.1)).isSome :=
        List.find?_isSome.mpr ⟨c, hc, by simp [hcf]⟩
      obtain ⟨y, hy⟩ := Option.isSome_iff_exists.mp hsome
      refine ⟨y.2, ?_, ?_⟩
      · rw [first_violation, hy]
        rfl
      · simp [schema_fidelity_strategy, h, first_violation, hy]

/-- Witness for C6 at the structured-test schema, exercising both the fully
matching person object (passes with score 1.0) and the spec's violating
None-fields object (fails, score strictly below one, detail carrying the
first violation). -/
theorem C6_witness :
    ([("schema", person_schema)].lookup "schema" = some person_schema) ∧
    json_schema_valid person_schema
      (.obj [("name", .str "John"), ("age", .num 30), ("occupation", .str "engineer")]) = true ∧
    json_schema_valid person_schema
      (.obj [("name", .str "John"), ("age", .null), ("occupation", .null)]) = false ∧
    (∃ r, apply "schema_fidelity"
        (.obj [("name", .str "John"), ("age", .num 30), ("occupation", .str "engineer")])
        [("schema", person_schema)] = some r ∧
      r.passed = true ∧ r.score = 1) ∧
    (∃ r, apply "schema_fidelity"
        (.obj [("name", .str "John"), ("age", .null), ("occupation", .null)])
        [("schema", person_schema)] = some r ∧
      r.passed = false ∧ r.score < 1 ∧
      ∃ m, first_violation (schema_checks person_schema
        (.obj [("name", .str "John"), ("age", .null), ("occupation", .null)])) = some m ∧
        r.detail = m) := by
  refine ⟨rfl, by decide, by decide, ?_, ?_⟩
  · obtain ⟨r, ha, -, hiff, hvs, -, -⟩ :=
      C6_schema_fidelity_validity
        (.obj [("name", .str "John"), ("age", .num 30), ("occupation", .str "engineer")])
        [("schema", person_schema)] person_schema rfl
    exact ⟨r, ha, hiff.mpr (by decide), hvs (by decide)⟩
  · obtain ⟨r, ha, -, -, -, -, hviol⟩ :=
      C6_schema_fidelity_validity
        (.obj [("name", .str "John"), ("age", .null), ("occupation", .null)])
        [("schema", person_schema)] person_schema rfl
    obtain ⟨hp, hs, m, hm, hd⟩ := hviol (by decide)
    exact ⟨r, ha, hp, hs, m, hm, hd⟩

/-- Every per-example outcome carries its example's id, whether or not the
function call raised. -/
theorem evaluate_example_id (judge : Judge) (f : Json → Except String Json)
    (config : EvaluationConfig) (ex : DatasetExample) :
    (evaluate_example judge f config ex).example_id = ex.id := by
  rw [evaluate_example]
  cases f ex.input <;> rfl

/-- An outcome's combined pass flag is the conjunction of its recorded
per-result pass flags, in the raising case as well as the normal one. -/
theorem evaluate_example_passed_all (judge : Judge) (f : Json → Except String Json)
    (config : EvaluationConfig) (ex : DatasetExample) :
    (evaluate_example judge f config ex).passed =
      (evaluate_example judge f config ex).results.all TestResult.passed := by
  rw [evaluate_example]
  cases f ex.input <;> rfl

/-- C7: an example passes exactly when all of its recorded results pass
(logical AND), the report's success rate is the number of passing examples
over the number of examples, and the run passes exactly when every example
passed. -/
theorem C7_run_pass_policy (w : Vald8Fn) (judge : Judge) (file : List FileLine)
    (rid : String) (report : RunReport)
    (h : w.run_eval judge file rid = .ok report) :
    report.summary.total_tests = report.results.length ∧
    (∀ o ∈ report.results, o.passed = o.results.all TestResult.passed) ∧
    report.summary.success_rate =
      ((report.results.filter ExampleOutcome.passed).length : ℚ) /
        ((report.results.length : ℚ)) ∧
    report.passed = decide ((report.results.filter ExampleOutcome.passed).length =
      report.results.length) := by
  rw [Vald8Fn.run_eval] at h
  cases hres : resolve_tests judge w.config.tests with
  | error e => rw [hres] at h; simp at h
  | ok u =>
      obtain ⟨⟩ := u
      rw [hres] at h
      cases hload : load_dataset file with
      | error e => rw [hload] at h; simp at h
      | ok exs =>
          rw [hload] at h
          simp only [Except.ok.injEq] at h
          subst h
          refine ⟨rfl, ?_, ?_, ?_⟩
          · intro o ho
            simp only [build_report] at ho
            obtain ⟨ex, -, rfl⟩ := List.mem_map.mp ho
            exact evaluate_example_passed_all judge w.func w.config ex
          · exact mkRat_eq_div _ _
          · exact all_eq_decide_filter_length _ _

/-- Witness for C7 on the simple_test.py run: simple_function evaluated on
the two-record simple_test dataset. -/
theorem C7_witness :
    (vald8 simple_test_config simple_function).run_eval reference_judge simple_test_file
      "run-0" = .ok simple_test_report ∧
    (simple_test_report.summary.total_tests = simple_test_report.results.length ∧
     (∀ o ∈ simple_test_report.results, o.passed = o.results.all TestResult.passed) ∧
     simple_test_report.summary.success_rate =
       ((simple_test_report.results.filter ExampleOutcome.passed).length : ℚ) /
         ((simple_test_report.results.length : ℚ)) ∧
     simple_test_report.passed =
       decide ((simple_test_report.results.filter ExampleOutcome.passed).length =
         simple_test_report.results.length)) :=
  ⟨rfl, C7_run_pass_policy (vald8 simple_test_config simple_function) reference_judge
    simple_test_file "run-0" simple_test_report rfl⟩

/-- C8: when the configuration resolves and the dataset loads, run_eval
returns a complete report: every example is represented by an outcome with
its id, the example count equals the dataset size, and an example whose
function invocation raised is recorded as a failed outcome whose detail
carries the exception message — the run is never aborted by it. -/
theorem C8_example_failure_isolation (w : Vald8Fn) (judge : Judge) (file : List FileLine)
    (rid : String) (exs : List DatasetExample)
    (hres : resolve_tests judge w.config.tests = .ok ())
    (hload : load_dataset file = .ok exs) :
    ∃ report, w.run_eval judge file rid = .ok report ∧
      report.summary.total_tests = exs.length ∧
      List.Forall₂ (fun ex o => o.example_id = ex.id) exs report.results ∧
      (∀ ex ∈ exs, ∀ msg, w.func ex.input = .error msg →
        ∃ o ∈ report.results, o.example_id = ex.id ∧ o.passed = false ∧
          ∃ r ∈ o.results, r.passed = false ∧ r.detail = "function raised: " ++ msg) := by
  refine ⟨build_report rid (exs.map (evaluate_example judge w.func w.config)), ?_, ?_, ?_, ?_⟩
  · rw [Vald8Fn.run_eval, hres, hload]
  · simp [build_report, summarize]
  · simp only [build_report]
    rw [List.forall₂_map_right_iff]
    exact List.forall₂_same.mpr (fun ex _ => evaluate_example_id judge w.func w.config ex)
  · intro ex hex msg hmsg
    refine ⟨evaluate_example judge w.func w.config ex,
      List.mem_map_of_mem _ hex, evaluate_example_id judge w.func w.config ex, ?_, ?_⟩
    · simp [evaluate_example, hmsg]
    · refine ⟨⟨ex.id, "execution", false, 0, "function raised: " ++ msg⟩, ?_, rfl, rfl⟩
      simp [evaluate_example, hmsg]

/-- Witness for C8 on a concrete run whose first example makes the wrapped
function raise. -/
theorem C8_witness :
    resolve_tests reference_judge (vald8 reference_config boom_function).config.tests = .ok () ∧
    load_dataset boom_file = .ok
      [⟨"e1", .str "boom", [("reference", .str "ok")]⟩,
       ⟨"e2", .str "x", [("reference", .str "ok")]⟩] ∧
    (∃ report, (vald8 reference_config boom_function).run_eval reference_judge boom_file
        "run-b" = .ok report ∧
      report.summary.total_tests =
        ([⟨"e1", .str "boom", [("reference", .str "ok")]⟩,
          ⟨"e2", .str "x", [("reference", .str "ok")]⟩] : List DatasetExample).length ∧
      List.Forall₂ (fun ex o => o.example_id = ex.id)
        ([⟨"e1", .str "boom", [("reference", .str "ok")]⟩,
          ⟨"e2", .str "x", [("reference", .str "ok")]⟩] : List DatasetExample) report.results ∧
      (∀ ex ∈ ([⟨"e1", .str "boom", [("reference", .str "ok")]⟩,
          ⟨"e2", .str "x", [("reference", .str "ok")]⟩] : List DatasetExample),
        ∀ msg, (vald8 reference_config boom_function).func ex.input = .error msg →
        ∃ o ∈ report.results, o.example_id = ex.id ∧ o.passed = false ∧
          ∃ r ∈ o.results, r.passed = false ∧ r.detail = "function raised: " ++ msg)) :=
  ⟨rfl, rfl, C8_example_failure_isolation (vald8 reference_config boom_function)
    reference_judge boom_file "run-b"
    [⟨"e1", .str "boom", [("reference", .str "ok")]⟩,
     ⟨"e2", .str "x", [("reference", .str "ok")]⟩] rfl rfl⟩

/-- C9: a configured strategy name the registry cannot resolve makes run_eval
fail with a ConfigurationError whose value does not depend on the wrapped
function — no example is invoked and no partial results exist — and every
run_eval invocation either returns a report or fails with one of the two
fatal error kinds (DatasetFormatError or ConfigurationError). -/
theorem C9_unknown_strategy_fail_fast (w : Vald8Fn) (judge : Judge) (file : List FileLine)
    (rid : String) (names : List String) (n : String)
    (htests : w.config.tests = some names) (hmem : n ∈ names)
    (hunknown : strategy_registry judge n = none) :
    (∃ m, w.run_eval judge file rid = .error (.configuration m) ∧
      ∀ g : Json → Except String Json,
        (vald8 w.config g).run_eval judge file rid = .error (.configuration m)) ∧
    (∀ (w2 : Vald8Fn) (file2 : List FileLine) (rid2 : String),
      (∃ report, w2.run_eval judge file2 rid2 = .ok report) ∨
      (∃ msg ln, w2.run_eval judge file2 rid2 = .error (.datasetFormat msg ln)) ∨
      (∃ msg, w2.run_eval judge file2 rid2 = .error (.configuration msg))) := by
  constructor
  · have hsome : (names.find? (fun x => (strategy_registry judge x).isNone)).isSome :=
      List.find?_isSome.mpr ⟨n, hmem, by simp [hunknown]⟩
    obtain ⟨n0, hn0⟩ := Option.isSome_iff_exists.mp hsome
    have hresolve : resolve_tests judge w.config.tests =
        .error (.configuration ("unknown strategy: " ++ n0)) := by
      rw [htests, resolve_tests, hn0]
    refine ⟨"unknown strategy: " ++ n0, ?_, ?_⟩
    · rw [Vald8Fn.run_eval, hresolve]
    · intro g
      have hcfg : (vald8 w.config g).config.tests = w.config.tests := rfl
      rw [Vald8Fn.run_eval, hcfg, hresolve]
  · intro w2 file2 rid2
    cases hr : w2.run_eval judge file2 rid2 with
    | ok report => exact Or.inl ⟨report, rfl⟩
    | error e =>
        cases e with
        | datasetFormat msg ln => exact Or.inr (Or.inl ⟨msg, ln, rfl⟩)
        | configuration msg => exact Or.inr (Or.inr ⟨msg, rfl⟩)

/-- Witness for C9 with a configuration naming the unregistered strategy
"bogus". -/
theorem C9_witness :
    (vald8 bogus_config simple_math).config.tests = some ["bogus"] ∧
    "bogus" ∈ ["bogus"] ∧
    strategy_registry reference_judge "bogus" = none ∧
    ((∃ m, (vald8 bogus_config simple_math).run_eval reference_judge [] "run-c" =
        .error (.configuration m) ∧
      ∀ g : Json → Except String Json,
        (vald8 (vald8 bogus_config simple_math).config g).run_eval reference_judge [] "run-c" =
          .error (.configuration m)) ∧
    (∀ (w2 : Vald8Fn) (file2 : List FileLine) (rid2 : String),
      (∃ report, w2.run_eval reference_judge file2 rid2 = .ok report) ∨
      (∃ msg ln, w2.run_eval reference_judge file2 rid2 = .error (.datasetFormat msg ln)) ∨
      (∃ msg, w2.run_eval reference_judge file2 rid2 = .error (.configuration msg)))) :=
  ⟨rfl, List.mem_singleton.mpr rfl, rfl,
   C9_unknown_strategy_fail_fast (vald8 bogus_config simple_math) reference_judge [] "run-c"
     ["bogus"] "bogus" rfl (List.mem_singleton.mpr rfl) rfl⟩

/-- C10: the strategy name "accuracy" is registered — the decoration of
extract_person_info with tests schema_fidelity and accuracy runs without any
ConfigurationError and yields a report whose metrics cover both configured
strategies and whose outcomes carry one result per configured strategy. -/
theorem C10_accuracy_strategy_registered :
    (strategy_registry reference_judge "accuracy").isSome = true ∧
    ∃ report, (vald8 structured_config extract_person_info).run_eval reference_judge
        structured_tests_file "run-1" = .ok report ∧
      report.summary.metrics.map Prod.fst = ["schema_fidelity", "accuracy"] ∧
      report.summary.total_tests = 2 ∧
      ∀ o ∈ report.results,
        o.results.map TestResult.strategy_name = ["schema_fidelity", "accuracy"] := by
  refine ⟨rfl, _, rfl, ?_, ?_, ?_⟩
  · decide
  · decide
  · decide

end Vald8
